import Mathlib

/-!
Shallow embedding of the glacial-alerter reconciliation core
(src/glacier_alert.py) and verification of its specification claims.

The script polls a hotel-inventory API, diffs fresh availability data
against a stored prior snapshot restricted to a watch list, appends
changed rows to a history CSV, overwrites the snapshot CSV, and rewrites
a metadata CSV with refreshed mean prices.

Modelling conventions:
- pandas Series/DataFrames indexed by composite keys are association
  lists (List (key x value)); lookup takes the first matching entry, as
  the indexes in the script are unique in every reachable state.
- Dates and timestamps are natural numbers; the currency amounts that
  pandas holds as floats are rationals.
- Network responses are inputs to the model. A chunk response that fails
  to parse (the bare except in get_room_availability, which makes the
  function return None) is the value none.
- File writes that can fail are driven by explicit boolean flags, so a
  cycle that dies at a given write is a concrete input of the model.
-/

namespace GlacialAlert

/-- AvailabilityKey: the (date, hotel_code, room_code) index used by the
snapshot series and the availability DataFrame. -/
structure AKey where
  date : Nat
  hotel : String
  room : String
deriving DecidableEq, Repr

/-- One row of the availability DataFrame built in get_room_availability:
columns date, hotel_code, room_code, available, price, sampled, updated. -/
structure Sample where
  date : Nat
  hotel : String
  room : String
  available : Nat
  price : Option Rat
  sampled : Nat
  updated : Nat
deriving DecidableEq, Repr

/-- Index key of a sample row, as set by set_index on lines 179. -/
def keyOf (s : Sample) : AKey :=
  { date := s.date, hotel := s.hotel, room := s.room }

/-- One row of the changes DataFrame: index key plus the opened and
closed boolean columns computed on lines 185-186. -/
structure ChangeRecord where
  key : AKey
  opened : Bool
  closed : Bool
deriving DecidableEq, Repr

/-- First-match lookup in an association list, the model of indexing a
pandas Series by key. -/
def lookupA (m : List (AKey × Nat)) (k : AKey) : Option Nat :=
  (m.find? fun kc => decide (kc.1 = k)).map (fun kc => kc.2)

/-- Lookup defaulting a missing entry to zero: the model of
Series.reindex(index, fill_value=0) applied pointwise (line 183). -/
def getAvail (m : List (AKey × Nat)) (k : AKey) : Nat :=
  (lookupA m k).getD 0

/-- The diff computation of run_update lines 182-187 as one function of
the current series, the prior series and the watch index: the prior is
reindexed to the index of current with fill value 0, opened and closed
are computed over the index of current, and the result is reindexed to
the watch index with fill value False. A watch key outside the index of
current therefore takes the fill record (false, false). -/
def diff (current prior : List (AKey × Nat)) (watch : List AKey) :
    List ChangeRecord :=
  watch.map fun k =>
    match lookupA current k with
    | some c =>
        { key := k,
          opened := decide (0 < c) && decide (getAvail prior k = 0),
          closed := decide (c = 0) && decide (0 < getAvail prior k) }
    | none => { key := k, opened := false, closed := false }

/-- Upstream per-request limit on the number of days (line 14). -/
def MAX_DAYS_REQUEST : Nat := 31

/-- Inclusive date range, the model of pd.date_range(start, end) on line
171 with days as naturals. -/
def date_range (start fin : Nat) : List Nat :=
  (List.range (fin + 1 - start)).map (fun i => start + i)

/-- The chunk list of line 172: dates[i:i+MAX_DAYS_REQUEST] for i in
range(0, len(dates), MAX_DAYS_REQUEST). Each slice is a drop followed by
a take, and the slice starts are the multiples of MAX_DAYS_REQUEST below
len(dates). -/
def date_chunks (dates : List Nat) : List (List Nat) :=
  (List.range ((dates.length + MAX_DAYS_REQUEST - 1) / MAX_DAYS_REQUEST)).map
    fun i => (dates.drop (i * MAX_DAYS_REQUEST)).take MAX_DAYS_REQUEST

/-- Errors a cycle can raise. concatError is the ValueError that
pd.concat raises on line 173 when every object in the list is None (or
the list is empty); persistError is a failed to_csv on lines 191-196;
deliverError is a failure inside send_room_updates on line 201. -/
inductive CycleError where
  | concatError
  | persistError
  | deliverError
deriving DecidableEq, Repr

/-- The model of pd.concat (line 173) over per-chunk fetch results: None
objects are dropped silently, unless all of them are None (or the list is
empty), in which case a ValueError is raised. -/
def concatPd (parts : List (Option (List Sample))) :
    Except CycleError (List Sample) :=
  let somes := parts.filterMap id
  if somes.isEmpty then Except.error CycleError.concatError
  else Except.ok somes.flatten

/-- The current-availability series of line 182: the available column of
new_df under its (date, hotel_code, room_code) index. -/
def currentOf (samples : List Sample) : List (AKey × Nat) :=
  samples.map fun s => (keyOf s, s.available)

/-- The rows selected by new_df.loc[current != last] on line 191: the
samples whose available value differs from the prior snapshot value for
the same key, a missing prior entry counting as 0 (line 183). -/
def histRows (samples : List Sample) (prior : List (AKey × Nat)) :
    List Sample :=
  samples.filter fun s => decide (¬ s.available = getAvail prior (keyOf s))

/-- What a cycle writes to the history CSV. -/
structure HistAppend where
  writeHeader : Bool
  rows : List Sample
deriving DecidableEq, Repr

/-- The history write of lines 190-193: if SAVED exists, append the
changed rows without a header; otherwise write all samples with a
header. -/
def histAction (savedExists : Bool) (samples : List Sample)
    (prior : List (AKey × Nat)) : HistAppend :=
  if savedExists then { writeHeader := false, rows := histRows samples prior }
  else { writeHeader := true, rows := samples }

/-- One row of the info DataFrame: (hotel_code, room_code) index with
room_title, max_occupancy, hotel_title and the latest_price column
rewritten on line 195. -/
structure RoomMeta where
  hotel : String
  room : String
  roomTitle : String
  hotelTitle : String
  maxOccupancy : Nat
  latestPrice : Option Rat
deriving DecidableEq, Repr

/-- Round to the nearest integer with ties to even, the rounding used by
Series.round via numpy. -/
def roundHalfEven (q : Rat) : Int :=
  let f := Int.floor q
  if q - f < 1/2 then f
  else if 1/2 < q - f then f + 1
  else if f % 2 = 0 then f else f + 1

/-- Series.round(2) on a currency amount. -/
def round2 (q : Rat) : Rat :=
  (roundHalfEven (q * 100) : Rat) / 100

/-- The grouped mean of line 195 for one (hotel_code, room_code) group:
the mean of the non-null prices of the samples of that room, rounded to
2 decimals; None when the group has no non-null price or no sample at
all (reindex fills such rows with NaN). -/
def priceMean (samples : List Sample) (hk rk : String) : Option Rat :=
  let ps := (samples.filter fun s =>
      decide (s.hotel = hk) && decide (s.room = rk)).filterMap
    (fun s => s.price)
  if ps.isEmpty then none
  else some (round2 ((ps.foldl (fun a b => a + b) 0) / (ps.length : Rat)))

/-- Line 195: info["latest_price"] is replaced by the per-room grouped
mean price of the cycle, reindexed to the info index. -/
def updatePrices (info : List RoomMeta) (samples : List Sample) :
    List RoomMeta :=
  info.map fun m => { m with latestPrice := priceMean samples m.hotel m.room }

/-- The three durable files. none means the file does not exist; for
SAVED the stored value is the list of data rows (the header line, written
once at creation, is implicit). -/
structure FileState where
  info : Option (List RoomMeta)
  last : Option (List (AKey × Nat))
  saved : Option (List Sample)
deriving DecidableEq, Repr

/-- Whether each fallible side effect of the persistence and delivery
phase succeeds, so that a cycle dying at a given write is a concrete
input. -/
structure WriteFlags where
  savedOk : Bool
  lastOk : Bool
  infoOk : Bool
  notifyOk : Bool
deriving DecidableEq, Repr

/-- One reconciliation cycle, run_update lines 151-204, returning the
final durable state together with the outcome: the change records handed
to the notifier on success, or the error raised. catalogInfo stands for
the get_hotel_rooms result used when INFO does not exist (line 163);
fetched holds the get_room_availability result of every (hotel, chunk)
request, none for a chunk whose response failed to parse. Writes happen
in source order SAVED, LAST, INFO, then notification; a failed step
raises and leaves the steps before it done. -/
def runUpdate (wf : WriteFlags) (catalogInfo : List RoomMeta)
    (fetched : List (Option (List Sample))) (watch : List AKey)
    (st : FileState) : FileState × Except CycleError (List ChangeRecord) :=
  let info := st.info.getD catalogInfo
  let prior := st.last.getD []
  match concatPd fetched with
  | Except.error e => (st, Except.error e)
  | Except.ok samples =>
    let current := currentOf samples
    let changes := diff current prior watch
    if wf.savedOk = false then (st, Except.error CycleError.persistError)
    else
      let act := histAction st.saved.isSome samples prior
      let st1 := { st with saved := some ((st.saved.getD []) ++ act.rows) }
      if wf.lastOk = false then (st1, Except.error CycleError.persistError)
      else
        let st2 := { st1 with last := some current }
        if wf.infoOk = false then (st2, Except.error CycleError.persistError)
        else
          let st3 := { st2 with info := some (updatePrices info samples) }
          if changes.any (fun r => r.opened || r.closed) && !wf.notifyOk
          then (st3, Except.error CycleError.deliverError)
          else (st3, Except.ok changes)

/-- In-place file overwrite, the model of calling to_csv on the target
path directly (line 196): the file is truncated and the rows of the new
content are written from the start, so a crash after k rows leaves the
first k new rows and nothing of the old file. -/
def to_csv_overwrite (rows : List String) (crashAt : Option Nat) :
    List String :=
  match crashAt with
  | none => rows
  | some k => rows.take k

/-- Modelled from the spec: the write-temp-then-rename save that section
4.1 ascribes to the metadata store but that is missing from the source
(info.to_csv(INFO) writes the target path in place). The new content goes
to a temporary file; a crash before the atomic rename leaves the old
file intact, and after the rename the new file is in place. -/
def atomicSave (oldRows newRows : List String) (crashBeforeRename : Bool) :
    List String :=
  if crashBeforeRename then oldRows else newRows

/-! Claim C1. The spec formula for closed fails for a watched key that is
absent from the current fetch while the prior holds a positive value:
line 183 reindexes the prior onto the index of current, so such a key is
filled with (false, false) on line 187 instead of closed = true. The
flags do satisfy the formulas on the index of current, and opened and
closed are never both true. -/

/-- C1 counterexample: with current = {} and prior = {k : 1}, the single
record for watched key k has closed = false, although current defaults
to 0 and prior is positive, so the claimed formula closed =
(current = 0 and prior > 0) demands closed = true. -/
theorem c1_formula_counterexample :
    diff [] [(⟨1, "H", "R"⟩, 1)] [⟨1, "H", "R"⟩] =
      [{ key := ⟨1, "H", "R"⟩, opened := false, closed := false }] ∧
    getAvail [] ⟨1, "H", "R"⟩ = 0 ∧
    0 < getAvail [(⟨1, "H", "R"⟩, 1)] ⟨1, "H", "R"⟩ := by
  refine ⟨rfl, rfl, by decide⟩

/-- C1 amended: every record the diff produces has opened and closed not
both true; for a key on the index of the current fetch the flags follow
the spec formulas with a missing prior entry defaulting to zero, and a
watched key outside the current fetch gets the fill record
(false, false). -/
theorem c1_flags_amended (current prior : List (AKey × Nat))
    (watch : List AKey) (r : ChangeRecord)
    (hr : r ∈ diff current prior watch) :
    (r.opened && r.closed) = false ∧
    (∀ c, lookupA current r.key = some c →
      r.opened = (decide (0 < c) && decide (getAvail prior r.key = 0)) ∧
      r.closed = (decide (c = 0) && decide (0 < getAvail prior r.key))) ∧
    (lookupA current r.key = none → r.opened = false ∧ r.closed = false) := by
  simp only [diff, List.mem_map] at hr
  obtain ⟨k, hk, rfl⟩ := hr
  rcases hc : lookupA current k with _ | c
  · simp [hc]
  · simp only [hc]
    refine ⟨by cases c <;> simp, ?_, ?_⟩
    · intro c2 hc2
      simp only [Option.some.injEq] at hc2
      subst hc2
      exact ⟨rfl, rfl⟩
    · intro hnone
      simp at hnone

theorem c1_flags_amended_witness :
    (({ key := ⟨1, "H", "R"⟩, opened := false, closed := false } :
        ChangeRecord).opened &&
      ({ key := ⟨1, "H", "R"⟩, opened := false, closed := false } :
        ChangeRecord).closed) = false :=
  (c1_flags_amended [] [(⟨1, "H", "R"⟩, 1)] [⟨1, "H", "R"⟩]
    { key := ⟨1, "H", "R"⟩, opened := false, closed := false } (by decide)).1

/-! Claim C2. The spec says a watched key missing from the current fetch
defaults its current value to zero, so one that was positive in the
prior would be reported closed. In the code the prior is reindexed onto
the index of current before comparing, and line 187 fills watch keys
outside that index with False, so such a key is reported
(false, false). -/

/-- C2 counterexample: watched key k1 has prior value 2 and is absent
from the current fetch (which holds a different key), yet its record has
closed = false where the claim demands closed = true. -/
theorem c2_missing_current_counterexample :
    lookupA [(⟨2, "H", "R2"⟩, 1)] ⟨1, "H", "R1"⟩ = none ∧
    getAvail [(⟨1, "H", "R1"⟩, 2)] ⟨1, "H", "R1"⟩ = 2 ∧
    diff [(⟨2, "H", "R2"⟩, 1)] [(⟨1, "H", "R1"⟩, 2)] [⟨1, "H", "R1"⟩] =
      [{ key := ⟨1, "H", "R1"⟩, opened := false, closed := false }] := by
  refine ⟨rfl, rfl, rfl⟩

/-- C2 amended: for a watched key on the index of the current fetch, a
missing prior entry defaults to zero; a watched key absent from the
current fetch is filled with (false, false) regardless of its prior
value, so in particular it is never reported closed. -/
theorem c2_watch_default_amended (current prior : List (AKey × Nat))
    (k : AKey) :
    (lookupA current k = none →
      diff current prior [k] = [{ key := k, opened := false, closed := false }]) ∧
    (∀ c, lookupA current k = some c → lookupA prior k = none →
      diff current prior [k] =
        [{ key := k, opened := decide (0 < c), closed := false }]) := by
  constructor
  · intro h
    simp [diff, h]
  · intro c hc hp
    simp [diff, hc, getAvail, hp]

theorem c2_watch_default_amended_witness :
    diff [(⟨2, "H", "R2"⟩, 1)] [(⟨1, "H", "R1"⟩, 2)] [⟨1, "H", "R1"⟩] =
      [{ key := ⟨1, "H", "R1"⟩, opened := false, closed := false }] :=
  (c2_watch_default_amended [(⟨2, "H", "R2"⟩, 1)] [(⟨1, "H", "R1"⟩, 2)]
    ⟨1, "H", "R1"⟩).1 (by decide)

/-! Claim C3. Line 187 reindexes the changes frame onto the watch index,
so the result has exactly one record per watch entry in order, and a
watch key appearing in neither current nor prior gets (false, false). -/

/-- C3: the diff result has exactly the watch keys, one record per watch
entry, and a watched key in neither current nor prior yields the record
(false, false). -/
theorem c3_keyset (current prior : List (AKey × Nat)) (watch : List AKey) :
    (diff current prior watch).map ChangeRecord.key = watch ∧
    (diff current prior watch).length = watch.length ∧
    ∀ r ∈ diff current prior watch, lookupA current r.key = none →
      lookupA prior r.key = none → r.opened = false ∧ r.closed = false := by
  refine ⟨?_, by simp [diff], ?_⟩
  · simp only [diff, List.map_map]
    conv_rhs => rw [← List.map_id watch]
    apply List.map_congr_left
    intro k _
    rcases hc : lookupA current k with _ | c <;> simp [hc]
  · intro r hr hcur _
    simp only [diff, List.mem_map] at hr
    obtain ⟨k, hk, rfl⟩ := hr
    rcases hc : lookupA current k with _ | c
    · simp [hc]
    · simp [hc] at hcur

theorem c3_keyset_witness :
    (diff [] [] [⟨1, "H", "R"⟩]).map ChangeRecord.key = [⟨1, "H", "R"⟩] ∧
    (({ key := ⟨1, "H", "R"⟩, opened := false, closed := false } :
        ChangeRecord).opened = false ∧
      ({ key := ⟨1, "H", "R"⟩, opened := false, closed := false } :
        ChangeRecord).closed = false) :=
  ⟨(c3_keyset [] [] [⟨1, "H", "R"⟩]).1,
    (c3_keyset [] [] [⟨1, "H", "R"⟩]).2.2
      { key := ⟨1, "H", "R"⟩, opened := false, closed := false }
      (by decide) (by decide) (by decide)⟩

/-! Claim C4. Lines 190-193: with SAVED present the cycle appends,
without a header, exactly the samples whose available value differs from
the prior snapshot value of their key; with SAVED absent all samples are
written with a header; and an unchanged snapshot appends nothing. -/

/-- C4: the history write appends, when the log exists, exactly the
samples whose available value differs from the prior value of their key
and writes no header; when the log does not exist it writes every sample
with a header; and when every sample agrees with the prior snapshot an
existing log gains zero rows. -/
theorem c4_history_append (samples : List Sample)
    (prior : List (AKey × Nat)) :
    (histAction true samples prior).writeHeader = false ∧
    (∀ s, s ∈ (histAction true samples prior).rows ↔
      s ∈ samples ∧ ¬ s.available = getAvail prior (keyOf s)) ∧
    (histAction false samples prior).writeHeader = true ∧
    (histAction false samples prior).rows = samples ∧
    ((∀ s ∈ samples, s.available = getAvail prior (keyOf s)) →
      (histAction true samples prior).rows = []) := by
  refine ⟨rfl, ?_, rfl, rfl, ?_⟩
  · intro s
    simp [histAction, histRows]
  · intro h
    simp only [histAction, if_true, histRows]
    rw [List.filter_eq_nil_iff]
    intro s hs
    simp [h s hs]

theorem c4_history_append_witness :
    ((⟨1, "H", "R", 2, none, 0, 0⟩ : Sample) ∈
        (histAction true [⟨1, "H", "R", 2, none, 0, 0⟩] []).rows ↔
      (⟨1, "H", "R", 2, none, 0, 0⟩ : Sample) ∈
          [(⟨1, "H", "R", 2, none, 0, 0⟩ : Sample)] ∧
        ¬ (2 : Nat) = getAvail [] (keyOf ⟨1, "H", "R", 2, none, 0, 0⟩)) ∧
    (histAction true [⟨1, "H", "R", 3, none, 0, 0⟩]
        [(⟨1, "H", "R"⟩, 3)]).rows = [] :=
  ⟨(c4_history_append [⟨1, "H", "R", 2, none, 0, 0⟩] []).2.1
      ⟨1, "H", "R", 2, none, 0, 0⟩,
    (c4_history_append [⟨1, "H", "R", 3, none, 0, 0⟩]
        [(⟨1, "H", "R"⟩, 3)]).2.2.2.2 (by decide)⟩

/-! Claim C5. Line 172 slices the date range at every multiple of
MAX_DAYS_REQUEST and line 175 issues one request per slice, with the
slice passed as (min(chunk), len(chunk)). -/

/-- Unfolding equation for date_chunks on a nonempty list: the first
chunk is the first MAX_DAYS_REQUEST dates and the rest is the chunking
of the remaining dates. -/
theorem date_chunks_cons (l : List Nat) (h : l ≠ []) :
    date_chunks l = l.take MAX_DAYS_REQUEST ::
      date_chunks (l.drop MAX_DAYS_REQUEST) := by
  have hlen : 0 < l.length := List.length_pos.mpr h
  have hn : (l.length + MAX_DAYS_REQUEST - 1) / MAX_DAYS_REQUEST =
      ((l.drop MAX_DAYS_REQUEST).length + MAX_DAYS_REQUEST - 1) /
        MAX_DAYS_REQUEST + 1 := by
    simp only [List.length_drop, MAX_DAYS_REQUEST]
    omega
  rw [date_chunks, hn, List.range_succ_eq_map, List.map_cons]
  rw [date_chunks, List.map_map, List.length_drop]
  congr 1
  apply List.map_congr_left
  intro i _
  simp only [Function.comp_apply, List.drop_drop]
  congr 2
  simp only [MAX_DAYS_REQUEST, Nat.succ_mul]
  omega

/-- Concatenating the chunks in order gives back the date range. -/
theorem date_chunks_flatten (l : List Nat) : (date_chunks l).flatten = l := by
  have H : ∀ n (l2 : List Nat), l2.length ≤ n →
      (date_chunks l2).flatten = l2 := by
    intro n
    induction n with
    | zero =>
      intro l2 hl
      have h2 : l2 = [] := List.length_eq_zero.mp (Nat.le_zero.mp hl)
      subst h2
      rfl
    | succ n ih =>
      intro l2 hl
      by_cases h : l2 = []
      · subst h
        rfl
      · rw [date_chunks_cons l2 h, List.flatten_cons,
          ih (l2.drop MAX_DAYS_REQUEST) ?_]
        · exact List.take_append_drop _ l2
        · have h3 : 0 < l2.length := List.length_pos.mpr h
          simp only [List.length_drop, MAX_DAYS_REQUEST]
          omega
  exact H l.length l le_rfl

/-- Every chunk spans at most MAX_DAYS_REQUEST days. -/
theorem date_chunks_size (l : List Nat) (c : List Nat)
    (hc : c ∈ date_chunks l) : c.length ≤ MAX_DAYS_REQUEST := by
  simp only [date_chunks, List.mem_map] at hc
  obtain ⟨i, _, rfl⟩ := hc
  simp

/-- C5: the chunks of any requested date range concatenate back to the
range in order and each spans at most MAX_DAYS_REQUEST days, one request
being issued per chunk; a 65-day window splits into exactly 3 chunks of
sizes 31, 31 and 3. -/
theorem c5_chunking :
    (∀ dates : List Nat, (date_chunks dates).flatten = dates ∧
      ∀ c ∈ date_chunks dates, c.length ≤ MAX_DAYS_REQUEST) ∧
    (date_chunks (date_range 1 65)).map List.length = [31, 31, 3] ∧
    (date_chunks (date_range 1 65)).length = 3 := by
  exact ⟨fun dates => ⟨date_chunks_flatten dates,
    fun c hc => date_chunks_size dates c hc⟩, by decide, by decide⟩

theorem c5_chunking_witness :
    (date_chunks (date_range 1 3)).flatten = date_range 1 3 ∧
    ([1, 2, 3] : List Nat).length ≤ MAX_DAYS_REQUEST :=
  ⟨(c5_chunking.1 (date_range 1 3)).1,
    (c5_chunking.1 (date_range 1 3)).2 [1, 2, 3] (by decide)⟩

/-! Facts about pd.concat and the cycle shared by the claims below. -/

/-- A None object in the concat list is dropped silently. -/
theorem concatPd_drop_none (pre post : List (Option (List Sample))) :
    concatPd (pre ++ none :: post) = concatPd (pre ++ post) := by
  simp [concatPd, List.filterMap_append, List.filterMap_cons]

/-- With at least one parsed chunk, pd.concat succeeds and returns the
concatenation of the parsed chunks in order. -/
theorem concatPd_ok_of_mem (parts : List (Option (List Sample)))
    (x : List Sample) (hx : some x ∈ parts) :
    concatPd parts = Except.ok ((parts.filterMap id).flatten) := by
  have hmem : x ∈ parts.filterMap id := List.mem_filterMap.mpr ⟨some x, hx, rfl⟩
  have hne : (parts.filterMap id).isEmpty = false := by
    cases h : parts.filterMap id
    · rw [h] at hmem
      cases hmem
    · rfl
  simp [concatPd, hne]

/-- With every object None, pd.concat raises. -/
theorem concatPd_error_of_all_none (parts : List (Option (List Sample)))
    (h : ∀ p ∈ parts, p = none) :
    concatPd parts = Except.error CycleError.concatError := by
  have hnil : parts.filterMap id = [] := by
    rw [List.filterMap_eq_nil_iff]
    intro a ha
    rw [h a ha]
    rfl
  simp [concatPd, hnil]

/-- The cycle reads its fetch results only through pd.concat. -/
theorem runUpdate_congr (wf : WriteFlags) (cat : List RoomMeta)
    (f1 f2 : List (Option (List Sample))) (watch : List AKey)
    (st : FileState) (h : concatPd f1 = concatPd f2) :
    runUpdate wf cat f1 watch st = runUpdate wf cat f2 watch st := by
  unfold runUpdate
  rw [h]

/-- A concat failure aborts the cycle before any store is touched. -/
theorem runUpdate_concat_error (wf : WriteFlags) (cat : List RoomMeta)
    (fetched : List (Option (List Sample))) (watch : List AKey)
    (st : FileState) (e : CycleError)
    (h : concatPd fetched = Except.error e) :
    runUpdate wf cat fetched watch st = (st, Except.error e) := by
  unfold runUpdate
  rw [h]

/-- When the fetch concatenation succeeds and every write and the
delivery succeed, the cycle returns the diff and leaves all three stores
rewritten from the fetched samples. -/
theorem runUpdate_ok (cat : List RoomMeta)
    (fetched : List (Option (List Sample))) (watch : List AKey)
    (st : FileState) (samples : List Sample)
    (h : concatPd fetched = Except.ok samples) :
    runUpdate ⟨true, true, true, true⟩ cat fetched watch st =
      ({ info := some (updatePrices (st.info.getD cat) samples),
         last := some (currentOf samples),
         saved := some ((st.saved.getD []) ++
           (histAction st.saved.isSome samples (st.last.getD [])).rows) },
       Except.ok (diff (currentOf samples) (st.last.getD []) watch)) := by
  unfold runUpdate
  rw [h]
  simp

/-! Claim C6. A chunk whose response fails to parse makes
get_room_availability return None; pd.concat drops it silently, so the
remaining chunks and hotels still make up the cycle, which completes and
persists the successfully fetched samples. -/

/-- C6: a failed chunk contributes zero samples while the other chunks
are kept, and as long as at least one chunk parsed, the cycle with the
failed chunk completes and persists exactly the successfully fetched
samples. -/
theorem c6_failed_chunk (pre post : List (Option (List Sample)))
    (wf : WriteFlags) (cat : List RoomMeta) (watch : List AKey)
    (st : FileState) :
    concatPd (pre ++ none :: post) = concatPd (pre ++ post) ∧
    runUpdate wf cat (pre ++ none :: post) watch st =
      runUpdate wf cat (pre ++ post) watch st ∧
    (∀ x : List Sample, some x ∈ pre ++ post →
      concatPd (pre ++ post) =
        Except.ok ((pre ++ post).filterMap id).flatten ∧
      runUpdate ⟨true, true, true, true⟩ cat (pre ++ none :: post) watch st =
        ({ info := some (updatePrices (st.info.getD cat)
              ((pre ++ post).filterMap id).flatten),
           last := some (currentOf ((pre ++ post).filterMap id).flatten),
           saved := some ((st.saved.getD []) ++
             (histAction st.saved.isSome ((pre ++ post).filterMap id).flatten
               (st.last.getD [])).rows) },
         Except.ok (diff (currentOf ((pre ++ post).filterMap id).flatten)
           (st.last.getD []) watch))) := by
  have h0 := concatPd_drop_none pre post
  refine ⟨h0, runUpdate_congr wf cat _ _ watch st h0, ?_⟩
  intro x hx
  have hok := concatPd_ok_of_mem (pre ++ post) x hx
  exact ⟨hok, runUpdate_ok cat _ watch st _ (h0.trans hok)⟩

theorem c6_failed_chunk_witness :
    concatPd ([some [(⟨1, "H", "R", 2, none, 0, 0⟩ : Sample)]] ++ none :: []) =
      concatPd ([some [(⟨1, "H", "R", 2, none, 0, 0⟩ : Sample)]] ++ []) ∧
    concatPd ([some [(⟨1, "H", "R", 2, none, 0, 0⟩ : Sample)]] ++ []) =
      Except.ok (([some [(⟨1, "H", "R", 2, none, 0, 0⟩ : Sample)]] ++ ([] :
        List (Option (List Sample)))).filterMap id).flatten :=
  ⟨(c6_failed_chunk [some [⟨1, "H", "R", 2, none, 0, 0⟩]] []
      ⟨true, true, true, true⟩ [] [] ⟨none, none, none⟩).1,
    ((c6_failed_chunk [some [⟨1, "H", "R", 2, none, 0, 0⟩]] []
      ⟨true, true, true, true⟩ [] [] ⟨none, none, none⟩).2.2
      [⟨1, "H", "R", 2, none, 0, 0⟩] (by decide)).1⟩

/-! Claim C7. A cycle whose fetch fails leaves every store untouched,
and nothing is written before the whole fetch has completed; but the
three stores are written one after the other on lines 191-196, so a
failure at the LAST write leaves the SAVED append of the same cycle on
disk, contradicting full atomicity (the spec itself concedes this for
PersistenceError in section 7). -/

/-- C7 counterexample: with the SAVED write succeeding and the LAST
write failing, the cycle raises yet the history store differs from its
pre-cycle state. -/
theorem c7_atomicity_counterexample :
    (runUpdate ⟨true, false, true, true⟩ []
        [some [⟨2, "H", "R2", 3, none, 0, 0⟩]] []
        ⟨some [], some [(⟨1, "H", "R1"⟩, 5)], some []⟩).2 =
      Except.error CycleError.persistError ∧
    (runUpdate ⟨true, false, true, true⟩ []
        [some [⟨2, "H", "R2", 3, none, 0, 0⟩]] []
        ⟨some [], some [(⟨1, "H", "R1"⟩, 5)], some []⟩).1.saved ≠
      (⟨some [], some [(⟨1, "H", "R1"⟩, 5)], some []⟩ : FileState).saved := by
  exact ⟨rfl, by decide⟩

/-- C7 amended: a cycle that fails at the fetch raises and leaves every
durable store in its pre-cycle state, so no fetched data reaches any
store before the full fetch has completed; and a cycle in which every
write and the delivery succeed completes with the three stores updated
consistently from the fetched samples. -/
theorem c7_fetch_atomic_amended (wf : WriteFlags) (cat : List RoomMeta)
    (fetched : List (Option (List Sample))) (watch : List AKey)
    (st : FileState) :
    (∀ e, concatPd fetched = Except.error e →
      runUpdate wf cat fetched watch st = (st, Except.error e)) ∧
    (∀ samples, concatPd fetched = Except.ok samples →
      runUpdate ⟨true, true, true, true⟩ cat fetched watch st =
        ({ info := some (updatePrices (st.info.getD cat) samples),
           last := some (currentOf samples),
           saved := some ((st.saved.getD []) ++
             (histAction st.saved.isSome samples (st.last.getD [])).rows) },
         Except.ok (diff (currentOf samples) (st.last.getD []) watch))) :=
  ⟨fun e he => runUpdate_concat_error wf cat fetched watch st e he,
    fun samples hs => runUpdate_ok cat fetched watch st samples hs⟩

theorem c7_fetch_atomic_amended_witness :
    runUpdate ⟨true, true, true, true⟩ [] [none] [] ⟨none, none, none⟩ =
      (⟨none, none, none⟩, Except.error CycleError.concatError) ∧
    runUpdate ⟨true, true, true, true⟩ [] [some []] [] ⟨none, none, none⟩ =
      ({ info := some (updatePrices ((⟨none, none, none⟩ :
            FileState).info.getD []) []),
         last := some (currentOf []),
         saved := some (((⟨none, none, none⟩ : FileState).saved.getD []) ++
           (histAction (⟨none, none, none⟩ :
              FileState).saved.isSome []
             ((⟨none, none, none⟩ : FileState).last.getD [])).rows) },
       Except.ok (diff (currentOf [])
         ((⟨none, none, none⟩ : FileState).last.getD []) [])) :=
  ⟨(c7_fetch_atomic_amended ⟨true, true, true, true⟩ [] [none] []
      ⟨none, none, none⟩).1 CycleError.concatError rfl,
    (c7_fetch_atomic_amended ⟨true, true, true, true⟩ [] [some []] []
      ⟨none, none, none⟩).2 [] rfl⟩

/-! Claim C8. Line 196 calls to_csv on the metadata path directly: the
file is overwritten in place, with no temporary file and no rename, so a
crash in the middle of the write can leave a file that is neither the
old nor the new table. -/

/-- C8 counterexample: crashing after one row of an in-place overwrite
leaves a file differing from both the old and the new table, which
write-temp-then-rename semantics would forbid. -/
theorem c8_overwrite_counterexample :
    to_csv_overwrite ["header", "GL,R1,120.0"] (some 1) ≠
      ["header", "GL,R1,99.0"] ∧
    to_csv_overwrite ["header", "GL,R1,120.0"] (some 1) ≠
      ["header", "GL,R1,120.0"] := by
  decide

/-- C8 amended: saving the metadata table overwrites the durable file in
place; an uninterrupted write leaves the new table, and a crash
mid-write leaves a prefix of the new table, losing the old file; the
temp-then-rename save the spec describes would instead leave either the
old or the new table intact. -/
theorem c8_overwrite_amended (newRows oldRows : List String) (k : Nat) :
    to_csv_overwrite newRows none = newRows ∧
    List.IsPrefix (to_csv_overwrite newRows (some k)) newRows ∧
    atomicSave oldRows newRows true = oldRows ∧
    atomicSave oldRows newRows false = newRows :=
  ⟨rfl, List.take_prefix k newRows, rfl, rfl⟩

/-! Claim C9. Line 194 rewrites LAST with the current series alone, so
after a successful cycle the snapshot holds exactly the keys fetched in
that cycle: a key observed only in an earlier cycle is dropped rather
than retained with its most recent observation. -/

/-- C9 counterexample: a successful cycle whose fetch no longer contains
a key held by the prior snapshot with value 5 leaves a snapshot with no
entry at all for that key. -/
theorem c9_key_dropped_counterexample :
    lookupA ((⟨some [], some [(⟨1, "H", "R1"⟩, 5)], some []⟩ :
        FileState).last.getD []) ⟨1, "H", "R1"⟩ = some 5 ∧
    (runUpdate ⟨true, true, true, true⟩ []
        [some [⟨2, "H", "R2", 3, none, 0, 0⟩]] []
        ⟨some [], some [(⟨1, "H", "R1"⟩, 5)], some []⟩).2 = Except.ok [] ∧
    lookupA ((runUpdate ⟨true, true, true, true⟩ []
        [some [⟨2, "H", "R2", 3, none, 0, 0⟩]] []
        ⟨some [], some [(⟨1, "H", "R1"⟩, 5)], some []⟩).1.last.getD [])
      ⟨1, "H", "R1"⟩ = none := by
  exact ⟨rfl, rfl, rfl⟩

/-- C9 amended: after every successful cycle the snapshot store holds
exactly the mapping of the current fetch — one value per key observed in
the current cycle — fully overwriting the previous file, so keys
observed only in earlier cycles are dropped. -/
theorem c9_snapshot_overwrite_amended (wf : WriteFlags)
    (cat : List RoomMeta) (fetched : List (Option (List Sample)))
    (watch : List AKey) (st st2 : FileState) (cs : List ChangeRecord)
    (h : runUpdate wf cat fetched watch st = (st2, Except.ok cs)) :
    ∃ samples, concatPd fetched = Except.ok samples ∧
      st2.last = some (currentOf samples) := by
  rcases hc : concatPd fetched with e | samples
  · rw [runUpdate_concat_error wf cat fetched watch st e hc] at h
    simp at h
  · refine ⟨samples, rfl, ?_⟩
    obtain ⟨sv, lv, iv, nv⟩ := wf
    cases hany : (diff (currentOf samples) (st.last.getD []) watch).any
        (fun r => r.opened || r.closed) <;>
      cases sv <;> cases lv <;> cases iv <;> cases nv <;>
        simp [runUpdate, hc, hany] at h <;>
        (try obtain ⟨h1, h2⟩ := h) <;> (try subst h1) <;> rfl

theorem c9_snapshot_overwrite_amended_witness :
    ∃ samples, concatPd [some [⟨2, "H", "R2", 3, none, 0, 0⟩]] =
        Except.ok samples ∧
      (⟨some [], some [(⟨2, "H", "R2"⟩, 3)],
          some [⟨2, "H", "R2", 3, none, 0, 0⟩]⟩ : FileState).last =
        some (currentOf samples) :=
  c9_snapshot_overwrite_amended ⟨true, true, true, true⟩ []
    [some [⟨2, "H", "R2", 3, none, 0, 0⟩]] []
    ⟨some [], some [(⟨1, "H", "R1"⟩, 5)], some []⟩
    ⟨some [], some [(⟨2, "H", "R2"⟩, 3)],
      some [⟨2, "H", "R2", 3, none, 0, 0⟩]⟩ [] rfl

/-! Claim C10. With every chunk of every hotel unparsed, the concat list
is all None, pd.concat raises its ValueError, and the cycle aborts with
no store written. -/

/-- C10: if every fetch result is None, pd.concat raises and the cycle
aborts with every durable store in its pre-cycle state. -/
theorem c10_all_none_aborts (wf : WriteFlags) (cat : List RoomMeta)
    (fetched : List (Option (List Sample))) (watch : List AKey)
    (st : FileState) (h : ∀ p ∈ fetched, p = none) :
    concatPd fetched = Except.error CycleError.concatError ∧
    runUpdate wf cat fetched watch st =
      (st, Except.error CycleError.concatError) := by
  have he := concatPd_error_of_all_none fetched h
  exact ⟨he, runUpdate_concat_error wf cat fetched watch st
    CycleError.concatError he⟩

theorem c10_all_none_aborts_witness :
    concatPd [none, none] = Except.error CycleError.concatError ∧
    runUpdate ⟨true, true, true, true⟩ [] [none, none] []
        ⟨none, none, none⟩ =
      (⟨none, none, none⟩, Except.error CycleError.concatError) :=
  c10_all_none_aborts ⟨true, true, true, true⟩ [] [none, none] []
    ⟨none, none, none⟩ (by decide)

end GlacialAlert
